import Mathlib

/-!
# Verification of the Chatbot-Backend relay (RevisePal/Chatbot-Backend)

A shallow embedding of the Express route handlers of `src/index.js` (and the
later `/checkAnswer` variant of the second source file), together with proofs
and refutations of the specification's claims about them.

JavaScript JSON values are embedded as the inductive `JsValue`; an absent
object field is `Option.none` (JS `undefined`).  Each route handler becomes a
pure Lean function from the parsed request parameters and the outcome of the
outbound upstream call(s) to a `HandlerResult`: the response the handler sends
(`none` when the handler sends no response at all) and the number of upstream
calls it issued.
-/

/-- A JavaScript JSON value, as produced by `express.json()` / `JSON.parse`. -/
inductive JsValue where
  | null : JsValue
  | str : String → JsValue
  | num : Int → JsValue
  | bool : Bool → JsValue
  | arr : List JsValue → JsValue
  | obj : List (String × JsValue) → JsValue
deriving Repr

namespace JsValue

/-- JavaScript truthiness of a value: `!v` in the source is `¬ truthy v`.
Empty string, `0`, `false` and `null` are falsy; arrays and objects are
always truthy. -/
def truthy : JsValue → Bool
  | .null => false
  | .str s => !s.isEmpty
  | .num n => n != 0
  | .bool b => b
  | .arr _ => true
  | .obj _ => true

/-- Field access `v.k`: `none` models JS `undefined` (absent field or access
on a non-object primitive). -/
def getField : JsValue → String → Option JsValue
  | .obj fs, k => (fs.find? (fun p => p.1 == k)).map (·.2)
  | _, _ => none

end JsValue

/-- Truthiness of a possibly-undefined value (`undefined` is falsy). -/
def truthyOpt : Option JsValue → Bool
  | none => false
  | some v => v.truthy

/-- JS loose equality against `null` (`x == null`): true exactly for `null`
and `undefined`. -/
def looseEqNull : Option JsValue → Bool
  | none => true
  | some .null => true
  | some _ => false

/-- JS strict equality `===` on values.  Arrays and objects compare by
reference; two values freshly parsed from distinct upstream/request JSON are
distinct references, so `===` on them is `false` here. -/
def jsStrictEqV : JsValue → JsValue → Bool
  | .null, .null => true
  | .str a, .str b => a == b
  | .num a, .num b => a == b
  | .bool a, .bool b => a == b
  | _, _ => false

/-- JS strict equality on possibly-undefined values: `undefined === undefined`
is true, `undefined === v` is false for any value `v`. -/
def jsStrictEq : Option JsValue → Option JsValue → Bool
  | none, none => true
  | some a, some b => jsStrictEqV a b
  | _, _ => false

/-- The test `conversations.length === 0` of the `/ask` handler: arrays and strings
have a numeric `length`; an object may carry its own `length` field; for all
other values `.length` is `undefined` and the strict comparison is false. -/
def jsLengthEqZero : JsValue → Bool
  | .arr xs => xs.isEmpty
  | .str s => s.isEmpty
  | .obj fs => jsStrictEq ((JsValue.obj fs).getField "length") (some (.num 0))
  | _ => false

def jsLengthEqZeroOpt : Option JsValue → Bool
  | none => false
  | some v => jsLengthEqZero v

/-!
## The profanity filter

Modelled from the spec: the `filter.clean` implementation lives in the
external `bad-words` npm package, not under the repository's sources; the
spec describes it as a "profanity filter (deterministic word-substitution
over a static blacklist)".  We model it accordingly: the input is split into
space-separated words, each word that occurs in the static blacklist is
replaced by a placeholder string of `*` of the same length, and the words are
rejoined with single spaces.  `badwordsList` is a representative excerpt of
the library's static default word list.
-/

/-- Modelled from the spec: a representative excerpt of the static blacklist
of the external `bad-words` package. -/
def badwordsList : List String :=
  ["ass", "asshole", "bastard", "bitch", "crap", "damn", "dick",
   "fuck", "hell", "piss", "prick", "pussy", "shit", "slut", "whore"]

/-- Membership of a word (as a character list) in the static blacklist. -/
def isProfane (w : List Char) : Bool :=
  badwordsList.contains (String.mk w)

/-- The substitution applied to a blacklisted word: every character becomes
the placeholder `*`. -/
def maskWord (w : List Char) : List Char :=
  w.map (fun _ => '*')

/-- Per-word filtering step. -/
def cleanWord (w : List Char) : List Char :=
  if isProfane w then maskWord w else w

/-- Split a character list on the space character.  Always returns a
non-empty list of space-free words; `splitWords [] = [[]]`. -/
def splitWords : List Char → List (List Char)
  | [] => [[]]
  | c :: cs =>
    let r := splitWords cs
    if c = ' ' then [] :: r
    else
      match r with
      | [] => [[c]]
      | w :: ws => (c :: w) :: ws

/-- Rejoin words with single spaces (left inverse of `splitWords` on
space-free words). -/
def joinWords : List (List Char) → List Char
  | [] => []
  | [w] => w
  | w :: ws => w ++ ' ' :: joinWords ws

/-- Modelled from the spec: `filter.clean` of the external `bad-words`
package — deterministic word-substitution over the static blacklist. -/
def clean (s : String) : String :=
  ⟨joinWords ((splitWords s.data).map cleanWord)⟩

/-!
## HTTP model

A handler receives the parsed request parameters (body, or query for the
`app.all` routes, already selected by method) and the outcome of each
outbound upstream call it may issue, and produces at most one response plus
the number of upstream calls it actually issued.
-/

/-- A response sent with `res.status(s).json(b)` or `res.status(s).send(b)`. -/
structure HttpResponse where
  status : Nat
  body : JsValue
deriving Repr

/-- What a handler does with a request: `response = none` means the handler
finished without ever sending a response; `upstreamCalls` counts the outbound
HTTP/model-provider calls it issued. -/
structure HandlerResult where
  response : Option HttpResponse
  upstreamCalls : Nat
deriving Repr

/-- A JavaScript `Error` as observed in a `catch` block. -/
structure JsError where
  message : String
  stack : String
deriving Repr

/-- A settled `fetch` response: `ok`, `status`, the value `.json()` parses
to, and the raw `.text()`. -/
structure FetchResponse where
  ok : Bool
  status : Nat
  jsonBody : JsValue
  textBody : String
deriving Repr

/-- Outcome of one `await fetch(...)`: a settled response, or a rejection
(network error) that surfaces as a thrown `JsError`. -/
inductive FetchOutcome where
  | resp : FetchResponse → FetchOutcome
  | err : JsError → FetchOutcome

/-- Outcome of one `await openai.chat.completions.create(...)`: success
carries `response.choices[0].message.content`; failure is the thrown
error. -/
inductive CompletionOutcome where
  | success : String → CompletionOutcome
  | failure : JsError → CompletionOutcome

/-- The body `{"error": "Missing required parameters"}`. -/
def missingParamsBody : JsValue := .obj [("error", .str "Missing required parameters")]

/-- The body `{"success": false, "message": "An error occurred while processing your request."}`. -/
def genericCompletionErrorBody : JsValue :=
  .obj [("success", .bool false),
        ("message", .str "An error occurred while processing your request.")]

/-- The body `{"error": "Section not found"}`. -/
def sectionNotFoundBody : JsValue := .obj [("error", .str "Section not found")]

/-- The `{success: true, message: m}` envelope of the completion routes. -/
def successEnvelope (m : String) : JsValue :=
  .obj [("success", .bool true), ("message", .str m)]

/-!
## Route handlers of `src/index.js`
-/

/-- Handler for `POST /ask`: validates `conversations` (falsy or `.length === 0` throws,
caught as a 500), then relays one completion call and returns the filtered
first choice. -/
def ask (body : JsValue) (upstream : CompletionOutcome) : HandlerResult :=
  let conversations := body.getField "conversations"
  if !truthyOpt conversations || jsLengthEqZeroOpt conversations then
    -- throw "No conversation history was provided" → catch → 500
    { response := some ⟨500, genericCompletionErrorBody⟩, upstreamCalls := 0 }
  else
    match upstream with
    | .success content =>
        { response := some ⟨200, successEnvelope (clean content)⟩, upstreamCalls := 1 }
    | .failure _ =>
        { response := some ⟨500, genericCompletionErrorBody⟩, upstreamCalls := 1 }

/-- Handler for `POST /checkAnswer` of `src/index.js`.  The handler checks `prompt`, but
the argument object of its upstream call reads the identifier
`conversations`, which is not in scope in this handler (the later variant
carries the comment "Fixed: was referencing undefined 'conversations'
variable").  Evaluating that argument throws a `ReferenceError` before the
upstream call is issued, and the `catch` block only logs — so on every input
no upstream call is made and no response is ever sent. -/
def checkAnswer (body : JsValue) : HandlerResult :=
  let prompt := body.getField "prompt"
  if looseEqNull prompt then
    -- throw "Uh oh, no prompt was provided" → catch → console.log only
    { response := none, upstreamCalls := 0 }
  else
    -- ReferenceError: conversations is not defined → catch → console.log only
    { response := none, upstreamCalls := 0 }

/-- Handler for `POST /checkAnswer` of the later source variant ("Fixed: was referencing
undefined 'conversations' variable"): relays the prompt as a single user
message and returns the filtered completion; any error becomes a 500. -/
def checkAnswerFixed (body : JsValue) (upstream : CompletionOutcome) : HandlerResult :=
  let prompt := body.getField "prompt"
  if looseEqNull prompt then
    { response := some ⟨500, genericCompletionErrorBody⟩, upstreamCalls := 0 }
  else
    match upstream with
    | .success content =>
        { response := some ⟨200, successEnvelope (clean content)⟩, upstreamCalls := 1 }
    | .failure _ =>
        { response := some ⟨500, genericCompletionErrorBody⟩, upstreamCalls := 1 }

/-- Handler for `POST /question-generator`: falsy `prompt` → 400; otherwise one
completion call whose first-choice content is returned **without** the
profanity filter; errors become a 500. -/
def questionGenerator (body : JsValue) (upstream : CompletionOutcome) : HandlerResult :=
  if !truthyOpt (body.getField "prompt") then
    { response := some ⟨400, .obj [("success", .bool false),
        ("message", .str "No prompt provided")]⟩, upstreamCalls := 0 }
  else
    match upstream with
    | .success content =>
        -- the raw content is returned; filter.clean is not called here
        { response := some ⟨200, successEnvelope content⟩, upstreamCalls := 1 }
    | .failure _ =>
        { response := some ⟨500, genericCompletionErrorBody⟩, upstreamCalls := 1 }

/-- Handler for `POST /canvasProxy`: no validation at all — the fetch is issued for every
request body.  A non-ok upstream status is forwarded with the upstream JSON
body; a thrown error produces a 500 whose body includes `error.stack`. -/
def canvasProxy (body : JsValue) (upstream : FetchOutcome) : HandlerResult :=
  let _apiKey := body.getField "apiKey"
  let _classCode := body.getField "classCode"
  match upstream with
  | .resp r =>
      if r.ok then
        { response := some ⟨200, r.jsonBody⟩, upstreamCalls := 1 }
      else
        { response := some ⟨r.status, r.jsonBody⟩, upstreamCalls := 1 }
  | .err e =>
      { response := some ⟨500, .obj [("error", .str e.message),
          ("stack", .str e.stack)]⟩, upstreamCalls := 1 }

/-- Handler for `GET|POST /sections`: validates `apiKey` and `classCode`, then one fetch;
a non-ok upstream response is re-thrown as
`Canvas API request failed: <text>` and caught as a 500 with a `details`
field. -/
def sections (params : JsValue) (upstream : FetchOutcome) : HandlerResult :=
  if !truthyOpt (params.getField "apiKey") || !truthyOpt (params.getField "classCode") then
    { response := some ⟨400, missingParamsBody⟩, upstreamCalls := 0 }
  else
    match upstream with
    | .resp r =>
        if r.ok then
          { response := some ⟨200, r.jsonBody⟩, upstreamCalls := 1 }
        else
          { response := some ⟨500, .obj [("error", .str "Failed to fetch sections"),
              ("details", .str ("Canvas API request failed: " ++ r.textBody))]⟩,
            upstreamCalls := 1 }
    | .err e =>
        { response := some ⟨500, .obj [("error", .str "Failed to fetch sections"),
            ("details", .str e.message)]⟩, upstreamCalls := 1 }

/-- Handler for `POST /announcements`: validates four fields, then one POST fetch; on ok
it answers with the fixed confirmation body, ignoring the upstream body. -/
def announcements (body : JsValue) (upstream : FetchOutcome) : HandlerResult :=
  if !truthyOpt (body.getField "courseId") || !truthyOpt (body.getField "title") ||
      !truthyOpt (body.getField "message") || !truthyOpt (body.getField "apiKey") then
    { response := some ⟨400, missingParamsBody⟩, upstreamCalls := 0 }
  else
    match upstream with
    | .resp r =>
        if r.ok then
          { response := some ⟨200, .obj [("message", .str "Announcement created")]⟩,
            upstreamCalls := 1 }
        else
          { response := some ⟨500, .obj [("error", .str "Failed to create announcement"),
              ("details", .str ("Canvas API request failed: " ++ r.textBody))]⟩,
            upstreamCalls := 1 }
    | .err e =>
        { response := some ⟨500, .obj [("error", .str "Failed to create announcement"),
            ("details", .str e.message)]⟩, upstreamCalls := 1 }

/-- The predicate `s.name === sectionName` of the `/students` section search. -/
def sectionMatches (sectionName : Option JsValue) (s : JsValue) : Bool :=
  jsStrictEq (s.getField "name") sectionName

/-- The predicate `enrollment.type === "StudentEnrollment"` of the `/students` filter. -/
def isStudentEnrollment (e : JsValue) : Bool :=
  jsStrictEq (e.getField "type") (some (.str "StudentEnrollment"))

/-- The body `{"error": "Failed to fetch students", "details": d}`. -/
def studentsFailBody (details : String) : JsValue :=
  .obj [("error", .str "Failed to fetch students"), ("details", .str details)]

/-- Handler for `GET|POST /students`: validates three fields; fetches the course's
sections; linearly searches for the first section whose `name` strictly
equals `sectionName` (404 and no second call when none matches); then
fetches that section's enrollments and returns those with
`type === "StudentEnrollment"`.  A non-array upstream JSON body makes
`.find` / `.filter` throw a `TypeError`, caught as a 500. -/
def students (params : JsValue) (upstream₁ upstream₂ : FetchOutcome) : HandlerResult :=
  if !truthyOpt (params.getField "apiKey") || !truthyOpt (params.getField "courseId") ||
      !truthyOpt (params.getField "sectionName") then
    { response := some ⟨400, missingParamsBody⟩, upstreamCalls := 0 }
  else
    match upstream₁ with
    | .err e => { response := some ⟨500, studentsFailBody e.message⟩, upstreamCalls := 1 }
    | .resp r₁ =>
      if !r₁.ok then
        -- throw "Failed to fetch sections" → catch → 500
        { response := some ⟨500, studentsFailBody "Failed to fetch sections"⟩,
          upstreamCalls := 1 }
      else
        match r₁.jsonBody with
        | .arr xs =>
          match xs.find? (sectionMatches (params.getField "sectionName")) with
          | none =>
              { response := some ⟨404, sectionNotFoundBody⟩, upstreamCalls := 1 }
          | some _section =>
            match upstream₂ with
            | .err e =>
                { response := some ⟨500, studentsFailBody e.message⟩, upstreamCalls := 2 }
            | .resp r₂ =>
              if !r₂.ok then
                -- throw "Failed to fetch students for the section" → catch → 500
                { response := some ⟨500,
                    studentsFailBody "Failed to fetch students for the section"⟩,
                  upstreamCalls := 2 }
              else
                match r₂.jsonBody with
                | .arr ys =>
                    { response := some ⟨200, .arr (ys.filter isStudentEnrollment)⟩,
                      upstreamCalls := 2 }
                | _ =>
                    -- TypeError: students.filter is not a function → catch → 500
                    { response := some ⟨500,
                        studentsFailBody "students.filter is not a function"⟩,
                      upstreamCalls := 2 }
        | _ =>
            -- TypeError: sections.find is not a function → catch → 500
            { response := some ⟨500, studentsFailBody "sections.find is not a function"⟩,
              upstreamCalls := 1 }

/-- A required field that is present but holds one of JavaScript's falsy
literals: the empty string, the number 0, or `false`. -/
def falsyLiteral (v : JsValue) : Prop :=
  v = .str "" ∨ v = .num 0 ∨ v = .bool false

/-- The field `k` is present on the body but bound to a falsy literal. -/
def falsyPresent (fs : List (String × JsValue)) (k : String) : Prop :=
  ∃ v, (JsValue.obj fs).getField k = some v ∧ falsyLiteral v

/-! ### Filter lemmas -/

theorem splitWords_ne_nil (cs : List Char) : splitWords cs ≠ [] := by
  cases cs with
  | nil => simp [splitWords]
  | cons c cs =>
    simp only [splitWords]
    split
    · simp
    · split <;> simp

theorem mem_splitWords_no_space (cs : List Char) :
    ∀ w ∈ splitWords cs, ' ' ∉ w := by
  induction cs with
  | nil => intro w hw; simp [splitWords] at hw; simp [hw]
  | cons c cs ih =>
    intro w hw
    obtain ⟨w₀, ws, hr⟩ := List.exists_cons_of_ne_nil (splitWords_ne_nil cs)
    have hw₀ : ' ' ∉ w₀ := ih w₀ (hr ▸ List.mem_cons_self w₀ ws)
    simp only [splitWords, hr] at hw
    by_cases hc : c = ' '
    · rw [if_pos hc] at hw
      rcases List.mem_cons.mp hw with rfl | hw'
      · simp
      · exact ih w (hr ▸ hw')
    · rw [if_neg hc] at hw
      rcases List.mem_cons.mp hw with rfl | hw'
      · intro hmem
        rcases List.mem_cons.mp hmem with h | h
        · exact hc h.symm
        · exact hw₀ h
      · exact ih w (hr ▸ List.mem_cons.mpr (Or.inr hw'))

theorem splitWords_space_cons (cs : List Char) :
    splitWords (' ' :: cs) = [] :: splitWords cs := by
  simp [splitWords]

theorem splitWords_append (w : List Char) (hw : ' ' ∉ w) (cs : List Char)
    {r : List Char} {rs : List (List Char)} (h : splitWords cs = r :: rs) :
    splitWords (w ++ cs) = (w ++ r) :: rs := by
  induction w with
  | nil => simpa using h
  | cons c w ih =>
    have hc : c ≠ ' ' := fun hcc => hw (hcc ▸ List.mem_cons_self c w)
    have hw' : ' ' ∉ w := fun hmem => hw (List.mem_cons.mpr (Or.inr hmem))
    have ihw := ih hw'
    show splitWords (c :: (w ++ cs)) = ((c :: w) ++ r) :: rs
    simp only [splitWords, List.append_eq, ihw, if_neg hc, List.cons_append]

theorem splitWords_joinWords (l : List (List Char)) (hne : l ≠ [])
    (hsp : ∀ w ∈ l, ' ' ∉ w) : splitWords (joinWords l) = l := by
  induction l with
  | nil => exact absurd rfl hne
  | cons w ws ih =>
    cases ws with
    | nil =>
      have hw : ' ' ∉ w := hsp w (List.mem_cons_self w [])
      have : joinWords [w] = w := rfl
      rw [this]
      have : splitWords (w ++ ([] : List Char)) = (w ++ []) :: [] :=
        splitWords_append w hw [] (by simp [splitWords])
      simpa using this
    | cons w₂ ws₂ =>
      have hw : ' ' ∉ w := hsp w (List.mem_cons_self w _)
      have hsp' : ∀ u ∈ w₂ :: ws₂, ' ' ∉ u := fun u hu =>
        hsp u (List.mem_cons.mpr (Or.inr hu))
      have ihr := ih (by simp) hsp'
      have hjoin : joinWords (w :: w₂ :: ws₂) = w ++ ' ' :: joinWords (w₂ :: ws₂) := rfl
      rw [hjoin]
      have hsplit : splitWords (' ' :: joinWords (w₂ :: ws₂))
          = [] :: (w₂ :: ws₂) := by
        rw [splitWords_space_cons, ihr]
      have := splitWords_append w hw (' ' :: joinWords (w₂ :: ws₂)) hsplit
      simpa using this

theorem mem_maskWord_star (w : List Char) : ∀ c ∈ maskWord w, c = '*' := by
  intro c hc
  rcases List.mem_map.mp hc with ⟨_, _, rfl⟩
  rfl

/-- A string made entirely of the placeholder `*` is never itself on the
static blacklist, so masking escapes the blacklist. -/
theorem not_profane_of_all_star (w : List Char) (h : ∀ c ∈ w, c = '*') :
    isProfane w = false := by
  by_contra hne
  have hmem : (String.mk w) ∈ badwordsList := by
    have : isProfane w = true := by
      cases hiso : isProfane w
      · exact absurd hiso hne
      · rfl
    simpa [isProfane, List.contains_iff_exists_mem_beq, beq_iff_eq,
      eq_comm] using this
  have hall : w.all (fun c => c == '*') = true := by
    rw [List.all_eq_true]
    intro c hc
    exact beq_iff_eq.mpr (h c hc)
  simp only [badwordsList, List.mem_cons, List.not_mem_nil, or_false] at hmem
  rcases hmem with h1|h1|h1|h1|h1|h1|h1|h1|h1|h1|h1|h1|h1|h1|h1 <;>
    (rw [show w = (String.mk w).data from rfl, h1] at hall; exact absurd hall (by decide))

theorem cleanWord_idem (w : List Char) : cleanWord (cleanWord w) = cleanWord w := by
  unfold cleanWord
  by_cases hp : isProfane w
  · rw [if_pos hp, if_neg]
    rw [not_profane_of_all_star (maskWord w) (mem_maskWord_star w)]
    simp
  · rw [if_neg hp, if_neg hp]

theorem cleanWord_no_space (w : List Char) (hw : ' ' ∉ w) : ' ' ∉ cleanWord w := by
  unfold cleanWord
  by_cases hp : isProfane w
  · rw [if_pos hp]
    intro hmem
    have := mem_maskWord_star w ' ' hmem
    exact absurd this (by decide)
  · rw [if_neg hp]; exact hw

/-- The profanity filter is idempotent. -/
theorem clean_idem (s : String) : clean (clean s) = clean s := by
  unfold clean
  congr 1
  set l := splitWords s.data with hl
  have hne : l ≠ [] := splitWords_ne_nil s.data
  have hsp : ∀ w ∈ l, ' ' ∉ w := mem_splitWords_no_space s.data
  have hne' : l.map cleanWord ≠ [] := by
    intro h
    exact hne (List.map_eq_nil_iff.mp h)
  have hsp' : ∀ w ∈ l.map cleanWord, ' ' ∉ w := by
    intro w hw
    rcases List.mem_map.mp hw with ⟨u, hu, rfl⟩
    exact cleanWord_no_space u (hsp u hu)
  have hdata : (String.mk (joinWords (l.map cleanWord))).data
      = joinWords (l.map cleanWord) := rfl
  rw [hdata, splitWords_joinWords (l.map cleanWord) hne' hsp']
  rw [List.map_map]
  congr 1
  exact List.map_congr_left fun w _ => cleanWord_idem w

/-!
## Claims
-/

/-- C1 (counterexample): the claim "every relay route returns 400 and never
calls upstream when a required field is missing" is false: `/canvasProxy`
with a body missing both `apiKey` and `classCode` still issues its upstream
call and does not answer 400. -/
theorem C1_counterexample :
    (canvasProxy (.obj [])
        (.resp ⟨false, 401, .obj [("errors", .str "Invalid access token.")], ""⟩)).upstreamCalls = 1
    ∧ (canvasProxy (.obj [])
        (.resp ⟨false, 401, .obj [("errors", .str "Invalid access token.")], ""⟩)).response.map
          HttpResponse.status ≠ some 400 := by
  exact ⟨rfl, by simp [canvasProxy]⟩

/-- C1 (amended): missing required fields never reach the upstream API on the
routes that validate — `/sections`, `/announcements`, `/students` return
400 `{"error":"Missing required parameters"}`, `/question-generator` returns
400 `{"success":false,"message":"No prompt provided"}` — while `/ask`
responds 500 (not 400) without calling upstream, `/checkAnswer` sends no
response at all without calling upstream, and `/canvasProxy` performs no
validation and issues its upstream call on every request. -/
theorem C1_amended_validation :
    (∀ fs u, (truthyOpt ((JsValue.obj fs).getField "apiKey") = false ∨
        truthyOpt ((JsValue.obj fs).getField "classCode") = false) →
      sections (.obj fs) u = ⟨some ⟨400, missingParamsBody⟩, 0⟩)
    ∧ (∀ fs u, (truthyOpt ((JsValue.obj fs).getField "courseId") = false ∨
        truthyOpt ((JsValue.obj fs).getField "title") = false ∨
        truthyOpt ((JsValue.obj fs).getField "message") = false ∨
        truthyOpt ((JsValue.obj fs).getField "apiKey") = false) →
      announcements (.obj fs) u = ⟨some ⟨400, missingParamsBody⟩, 0⟩)
    ∧ (∀ fs u₁ u₂, (truthyOpt ((JsValue.obj fs).getField "apiKey") = false ∨
        truthyOpt ((JsValue.obj fs).getField "courseId") = false ∨
        truthyOpt ((JsValue.obj fs).getField "sectionName") = false) →
      students (.obj fs) u₁ u₂ = ⟨some ⟨400, missingParamsBody⟩, 0⟩)
    ∧ (∀ fs u, truthyOpt ((JsValue.obj fs).getField "prompt") = false →
      questionGenerator (.obj fs) u
        = ⟨some ⟨400, .obj [("success", .bool false),
            ("message", .str "No prompt provided")]⟩, 0⟩)
    ∧ (∀ fs u, truthyOpt ((JsValue.obj fs).getField "conversations") = false →
      ask (.obj fs) u = ⟨some ⟨500, genericCompletionErrorBody⟩, 0⟩)
    ∧ (∀ fs, looseEqNull ((JsValue.obj fs).getField "prompt") = true →
      checkAnswer (.obj fs) = ⟨none, 0⟩)
    ∧ (∀ body u, (canvasProxy body u).upstreamCalls = 1) := by
  refine ⟨?_, ?_, ?_, ?_, ?_, ?_, ?_⟩
  · intro fs u h
    rcases h with h | h <;> simp [sections, h]
  · intro fs u h
    rcases h with h | h | h | h <;> simp [announcements, h]
  · intro fs u₁ u₂ h
    rcases h with h | h | h <;> simp [students, h]
  · intro fs u h
    simp [questionGenerator, h]
  · intro fs u h
    simp [ask, h]
  · intro fs h
    simp [checkAnswer, h]
  · intro body u
    cases u with
    | resp r =>
      by_cases hok : r.ok <;> simp [canvasProxy, hok]
    | err e => rfl

/-- C1 (witness): the amended statement applied at concrete inputs: an empty
body on each route. -/
theorem C1_amended_validation_witness :
    sections (.obj []) (.resp ⟨true, 200, .arr [], ""⟩)
      = ⟨some ⟨400, missingParamsBody⟩, 0⟩
    ∧ announcements (.obj []) (.resp ⟨true, 200, .arr [], ""⟩)
      = ⟨some ⟨400, missingParamsBody⟩, 0⟩
    ∧ students (.obj []) (.resp ⟨true, 200, .arr [], ""⟩) (.resp ⟨true, 200, .arr [], ""⟩)
      = ⟨some ⟨400, missingParamsBody⟩, 0⟩
    ∧ questionGenerator (.obj []) (.success "hi")
      = ⟨some ⟨400, .obj [("success", .bool false),
          ("message", .str "No prompt provided")]⟩, 0⟩
    ∧ ask (.obj []) (.success "hi") = ⟨some ⟨500, genericCompletionErrorBody⟩, 0⟩
    ∧ checkAnswer (.obj []) = ⟨none, 0⟩
    ∧ (canvasProxy (.obj []) (.resp ⟨true, 200, .arr [], ""⟩)).upstreamCalls = 1 :=
  ⟨C1_amended_validation.1 [] _ (Or.inl rfl),
   C1_amended_validation.2.1 [] _ (Or.inl rfl),
   C1_amended_validation.2.2.1 [] _ _ (Or.inl rfl),
   C1_amended_validation.2.2.2.1 [] _ rfl,
   C1_amended_validation.2.2.2.2.1 [] _ rfl,
   C1_amended_validation.2.2.2.2.2.1 [] rfl,
   C1_amended_validation.2.2.2.2.2.2 _ _⟩

/-- C2: [code bug] for `POST /checkAnswer` with body `{"prompt":"2+2"}` the
`src/index.js` handler never reaches the upstream call (it throws a
`ReferenceError` on the out-of-scope identifier `conversations`) and the
catch block sends no response — so the documented 200
`{"success":true,"message":"The answer is 4."}` is never produced. -/
theorem C2_checkAnswer_sends_no_response :
    checkAnswer (.obj [("prompt", .str "2+2")]) = ⟨none, 0⟩ := rfl

/-- C4: [code bug] not every handler sends a response: `/checkAnswer` of
`src/index.js` ends every request with no response sent (its catch block
only logs), contradicting "exactly one response per request". -/
theorem C4_checkAnswer_leaves_request_hanging :
    (checkAnswer (.obj [("prompt", .str "what is 2+2?")])).response = none := rfl

/-- C8: [code bug] `/canvasProxy` leaks the exception's stack trace to the
client: when the upstream fetch throws, the 500 body carries a `stack` field
holding `error.stack`. -/
theorem C8_canvasProxy_leaks_stack :
    (canvasProxy (.obj [("apiKey", .str "k"), ("classCode", .str "101")])
        (.err ⟨"request to canvas failed", "Error: request to canvas failed\n    at ClientRequest"⟩)).response
      = some ⟨500, .obj [("error", .str "request to canvas failed"),
          ("stack", .str "Error: request to canvas failed\n    at ClientRequest")]⟩ := rfl

/-- C9: the profanity filter is idempotent — cleaning already-cleaned text
yields the same text. -/
theorem C9_clean_idempotent (s : String) : clean (clean s) = clean s :=
  clean_idem s

/-- C3 (counterexample): the claim "the filter is run before returning on
every completion-relay route" is false: `/question-generator` returns the
first choice's content verbatim even when the filter would change it. -/
theorem C3_counterexample :
    (questionGenerator (.obj [("prompt", .str "write a question")])
        (.success "damn")).response = some ⟨200, successEnvelope "damn"⟩
    ∧ clean "damn" ≠ "damn" :=
  ⟨rfl, by decide⟩

/-- C3 (amended): on upstream success, `/ask` and the fixed `/checkAnswer`
variant return the profanity filter applied to the first choice's content,
`/question-generator` returns that content unfiltered, and the
`src/index.js` `/checkAnswer` never returns a message at all. -/
theorem C3_amended_filter_coverage :
    (∀ body content, truthyOpt (body.getField "conversations") = true →
        jsLengthEqZeroOpt (body.getField "conversations") = false →
        ask body (.success content)
          = ⟨some ⟨200, successEnvelope (clean content)⟩, 1⟩)
    ∧ (∀ body content, looseEqNull (body.getField "prompt") = false →
        checkAnswerFixed body (.success content)
          = ⟨some ⟨200, successEnvelope (clean content)⟩, 1⟩)
    ∧ (∀ body content, truthyOpt (body.getField "prompt") = true →
        questionGenerator body (.success content)
          = ⟨some ⟨200, successEnvelope content⟩, 1⟩)
    ∧ (∀ body, (checkAnswer body).response = none) := by
  refine ⟨?_, ?_, ?_, ?_⟩
  · intro body content h1 h2
    simp [ask, h1, h2]
  · intro body content h
    simp [checkAnswerFixed, h]
  · intro body content h
    simp [questionGenerator, h]
  · intro body
    by_cases h : looseEqNull (body.getField "prompt") <;> simp [checkAnswer, h]

/-- C3 (witness): the amended statement at concrete inputs; on `/ask` and
the fixed `/checkAnswer`, the profane completion comes back masked, while
`/question-generator` echoes it. -/
theorem C3_amended_filter_coverage_witness :
    ask (.obj [("conversations", .arr [.obj [("role", .str "user"),
        ("content", .str "hi")]])]) (.success "what the hell")
      = ⟨some ⟨200, successEnvelope "what the ****"⟩, 1⟩
    ∧ checkAnswerFixed (.obj [("prompt", .str "2+2")]) (.success "what the hell")
      = ⟨some ⟨200, successEnvelope "what the ****"⟩, 1⟩
    ∧ questionGenerator (.obj [("prompt", .str "q")]) (.success "what the hell")
      = ⟨some ⟨200, successEnvelope "what the hell"⟩, 1⟩
    ∧ (checkAnswer (.obj [("prompt", .str "2+2")])).response = none := by
  refine ⟨?_, ?_, ?_, ?_⟩
  · have h := C3_amended_filter_coverage.1 (.obj [("conversations",
      .arr [.obj [("role", .str "user"), ("content", .str "hi")]])])
      "what the hell" rfl rfl
    rw [h]
    have : clean "what the hell" = "what the ****" := by decide
    rw [this]
  · have h := C3_amended_filter_coverage.2.1 (.obj [("prompt", .str "2+2")])
      "what the hell" rfl
    rw [h]
    have : clean "what the hell" = "what the ****" := by decide
    rw [this]
  · exact C3_amended_filter_coverage.2.2.1 (.obj [("prompt", .str "q")])
      "what the hell" rfl
  · exact C3_amended_filter_coverage.2.2.2 (.obj [("prompt", .str "2+2")])

/-- C5 (counterexample): the claim "every LMS-relay request whose upstream
call returns non-2xx is answered with that same upstream status" is false:
`/sections` answers 500 to an upstream 401. -/
theorem C5_counterexample :
    (sections (.obj [("apiKey", .str "k"), ("classCode", .str "101")])
        (.resp ⟨false, 401, .obj [("errors", .str "unauthorized")], "unauthorized"⟩)).response.map
      HttpResponse.status = some 500
    ∧ (500 : Nat) ≠ 401 :=
  ⟨rfl, by decide⟩

/-- C5 (amended): on an upstream non-2xx response, `/canvasProxy` forwards
the same upstream status with the raw upstream JSON body (no `details`
field); `/sections` and `/announcements` answer 500 with a `details` field
carrying `"Canvas API request failed: "` followed by the upstream body text;
`/students` answers 500 with a fixed `details` message (`"Failed to fetch
sections"` for its first call, `"Failed to fetch students for the section"`
for its second). -/
theorem C5_amended_upstream_error_mapping :
    (∀ body r, r.ok = false →
      canvasProxy body (.resp r) = ⟨some ⟨r.status, r.jsonBody⟩, 1⟩)
    ∧ (∀ fs r, truthyOpt ((JsValue.obj fs).getField "apiKey") = true →
        truthyOpt ((JsValue.obj fs).getField "classCode") = true →
        r.ok = false →
        sections (.obj fs) (.resp r)
          = ⟨some ⟨500, .obj [("error", .str "Failed to fetch sections"),
              ("details", .str ("Canvas API request failed: " ++ r.textBody))]⟩, 1⟩)
    ∧ (∀ fs r, truthyOpt ((JsValue.obj fs).getField "courseId") = true →
        truthyOpt ((JsValue.obj fs).getField "title") = true →
        truthyOpt ((JsValue.obj fs).getField "message") = true →
        truthyOpt ((JsValue.obj fs).getField "apiKey") = true →
        r.ok = false →
        announcements (.obj fs) (.resp r)
          = ⟨some ⟨500, .obj [("error", .str "Failed to create announcement"),
              ("details", .str ("Canvas API request failed: " ++ r.textBody))]⟩, 1⟩)
    ∧ (∀ fs r₁ u₂, truthyOpt ((JsValue.obj fs).getField "apiKey") = true →
        truthyOpt ((JsValue.obj fs).getField "courseId") = true →
        truthyOpt ((JsValue.obj fs).getField "sectionName") = true →
        r₁.ok = false →
        students (.obj fs) (.resp r₁) u₂
          = ⟨some ⟨500, studentsFailBody "Failed to fetch sections"⟩, 1⟩)
    ∧ (∀ fs r₁ r₂ xs sec, truthyOpt ((JsValue.obj fs).getField "apiKey") = true →
        truthyOpt ((JsValue.obj fs).getField "courseId") = true →
        truthyOpt ((JsValue.obj fs).getField "sectionName") = true →
        r₁.ok = true → r₁.jsonBody = .arr xs →
        xs.find? (sectionMatches ((JsValue.obj fs).getField "sectionName")) = some sec →
        r₂.ok = false →
        students (.obj fs) (.resp r₁) (.resp r₂)
          = ⟨some ⟨500, studentsFailBody "Failed to fetch students for the section"⟩, 2⟩) := by
  refine ⟨?_, ?_, ?_, ?_, ?_⟩
  · intro body r h
    simp [canvasProxy, h]
  · intro fs r h1 h2 h
    simp [sections, h1, h2, h]
  · intro fs r h1 h2 h3 h4 h
    simp [announcements, h1, h2, h3, h4, h]
  · intro fs r₁ u₂ h1 h2 h3 h
    simp [students, h1, h2, h3, h]
  · intro fs r₁ r₂ xs sec h1 h2 h3 hok hbody hfind h
    simp [students, h1, h2, h3, hok, hbody, hfind, h]

/-- C5 (witness): the amended statement at concrete inputs, one per
conjunct. -/
theorem C5_amended_upstream_error_mapping_witness :
    canvasProxy (.obj [("apiKey", .str "bad"), ("classCode", .str "101")])
        (.resp ⟨false, 401, .obj [("errors", .str "unauthorized")], "unauthorized"⟩)
      = ⟨some ⟨401, .obj [("errors", .str "unauthorized")]⟩, 1⟩
    ∧ sections (.obj [("apiKey", .str "k"), ("classCode", .str "101")])
        (.resp ⟨false, 401, .null, "unauthorized"⟩)
      = ⟨some ⟨500, .obj [("error", .str "Failed to fetch sections"),
          ("details", .str "Canvas API request failed: unauthorized")]⟩, 1⟩
    ∧ announcements (.obj [("courseId", .str "101"), ("title", .str "t"),
        ("message", .str "m"), ("apiKey", .str "k")])
        (.resp ⟨false, 403, .null, "forbidden"⟩)
      = ⟨some ⟨500, .obj [("error", .str "Failed to create announcement"),
          ("details", .str "Canvas API request failed: forbidden")]⟩, 1⟩
    ∧ students (.obj [("apiKey", .str "k"), ("courseId", .str "101"),
        ("sectionName", .str "A")])
        (.resp ⟨false, 401, .null, "unauthorized"⟩) (.resp ⟨true, 200, .arr [], ""⟩)
      = ⟨some ⟨500, studentsFailBody "Failed to fetch sections"⟩, 1⟩
    ∧ students (.obj [("apiKey", .str "k"), ("courseId", .str "101"),
        ("sectionName", .str "A")])
        (.resp ⟨true, 200, .arr [.obj [("name", .str "A"), ("id", .num 7)]], ""⟩)
        (.resp ⟨false, 403, .null, "forbidden"⟩)
      = ⟨some ⟨500, studentsFailBody "Failed to fetch students for the section"⟩, 2⟩ :=
  ⟨C5_amended_upstream_error_mapping.1 _ _ rfl,
   C5_amended_upstream_error_mapping.2.1 _ _ rfl rfl rfl,
   C5_amended_upstream_error_mapping.2.2.1 _ _ rfl rfl rfl rfl rfl,
   C5_amended_upstream_error_mapping.2.2.2.1 _ _ _ rfl rfl rfl rfl,
   C5_amended_upstream_error_mapping.2.2.2.2 _ _ _
     [.obj [("name", .str "A"), ("id", .num 7)]] _ rfl rfl rfl rfl rfl rfl rfl⟩

/-- C6: `/students` with its three fields present fetches the course's
sections once; if no section's `name` strictly equals `sectionName` it
answers 404 `{"error":"Section not found"}` after that single upstream call;
otherwise (first match selected by the linear search) it fetches that
section's enrollments and returns exactly those whose `type` equals
`"StudentEnrollment"`. -/
theorem C6_students_section_search :
    ∀ fs (r₁ : FetchResponse) (xs : List JsValue) u₂,
      truthyOpt ((JsValue.obj fs).getField "apiKey") = true →
      truthyOpt ((JsValue.obj fs).getField "courseId") = true →
      truthyOpt ((JsValue.obj fs).getField "sectionName") = true →
      r₁.ok = true → r₁.jsonBody = .arr xs →
      ((∀ x ∈ xs, sectionMatches ((JsValue.obj fs).getField "sectionName") x = false) →
        students (.obj fs) (.resp r₁) u₂ = ⟨some ⟨404, sectionNotFoundBody⟩, 1⟩)
      ∧ (∀ sec (r₂ : FetchResponse) ys,
          xs.find? (sectionMatches ((JsValue.obj fs).getField "sectionName")) = some sec →
          r₂.ok = true → r₂.jsonBody = .arr ys →
          students (.obj fs) (.resp r₁) (.resp r₂)
            = ⟨some ⟨200, .arr (ys.filter isStudentEnrollment)⟩, 2⟩) := by
  intro fs r₁ xs u₂ h1 h2 h3 hok hbody
  constructor
  · intro hno
    have hfind : xs.find? (sectionMatches ((JsValue.obj fs).getField "sectionName"))
        = none := by
      rw [List.find?_eq_none]
      intro x hx
      simp [hno x hx]
    simp [students, h1, h2, h3, hok, hbody, hfind]
  · intro sec r₂ ys hfind hok2 hbody2
    simp [students, h1, h2, h3, hok, hbody, hfind, hok2, hbody2]

/-- C6 (witness): a section list without a matching name gives 404 after one
call; with the name matched, the teacher enrollment is filtered out of the
result of the second call. -/
theorem C6_students_section_search_witness :
    students (.obj [("apiKey", .str "k"), ("courseId", .str "101"),
        ("sectionName", .str "A")])
        (.resp ⟨true, 200, .arr [.obj [("name", .str "B"), ("id", .num 1)]], ""⟩)
        (.resp ⟨true, 200, .arr [], ""⟩)
      = ⟨some ⟨404, sectionNotFoundBody⟩, 1⟩
    ∧ students (.obj [("apiKey", .str "k"), ("courseId", .str "101"),
        ("sectionName", .str "A")])
        (.resp ⟨true, 200, .arr [.obj [("name", .str "B"), ("id", .num 1)],
            .obj [("name", .str "A"), ("id", .num 2)]], ""⟩)
        (.resp ⟨true, 200, .arr [
            .obj [("type", .str "StudentEnrollment"), ("user_id", .num 10)],
            .obj [("type", .str "TeacherEnrollment"), ("user_id", .num 11)]], ""⟩)
      = ⟨some ⟨200, .arr [.obj [("type", .str "StudentEnrollment"),
          ("user_id", .num 10)]]⟩, 2⟩ := by
  constructor
  · exact (C6_students_section_search
      [("apiKey", .str "k"), ("courseId", .str "101"), ("sectionName", .str "A")]
      ⟨true, 200, .arr [.obj [("name", .str "B"), ("id", .num 1)]], ""⟩
      [.obj [("name", .str "B"), ("id", .num 1)]]
      (.resp ⟨true, 200, .arr [], ""⟩) rfl rfl rfl rfl rfl).1 (by decide)
  · exact (C6_students_section_search
      [("apiKey", .str "k"), ("courseId", .str "101"), ("sectionName", .str "A")]
      ⟨true, 200, .arr [.obj [("name", .str "B"), ("id", .num 1)],
        .obj [("name", .str "A"), ("id", .num 2)]], ""⟩
      [.obj [("name", .str "B"), ("id", .num 1)],
        .obj [("name", .str "A"), ("id", .num 2)]]
      (.resp ⟨true, 200, .arr [
        .obj [("type", .str "StudentEnrollment"), ("user_id", .num 10)],
        .obj [("type", .str "TeacherEnrollment"), ("user_id", .num 11)]], ""⟩)
      rfl rfl rfl rfl rfl).2
      (.obj [("name", .str "A"), ("id", .num 2)])
      ⟨true, 200, .arr [
        .obj [("type", .str "StudentEnrollment"), ("user_id", .num 10)],
        .obj [("type", .str "TeacherEnrollment"), ("user_id", .num 11)]], ""⟩
      [.obj [("type", .str "StudentEnrollment"), ("user_id", .num 10)],
        .obj [("type", .str "TeacherEnrollment"), ("user_id", .num 11)]]
      rfl rfl rfl

/-- C7: `/announcements` with its four fields present answers every upstream
success with the fixed body `{"message":"Announcement created"}`, whatever
the upstream response body is. -/
theorem C7_announcements_fixed_confirmation :
    ∀ fs (r : FetchResponse),
      truthyOpt ((JsValue.obj fs).getField "courseId") = true →
      truthyOpt ((JsValue.obj fs).getField "title") = true →
      truthyOpt ((JsValue.obj fs).getField "message") = true →
      truthyOpt ((JsValue.obj fs).getField "apiKey") = true →
      r.ok = true →
      announcements (.obj fs) (.resp r)
        = ⟨some ⟨200, .obj [("message", .str "Announcement created")]⟩, 1⟩ := by
  intro fs r h1 h2 h3 h4 h
  simp [announcements, h1, h2, h3, h4, h]

/-- C7 (witness): two upstream successes with very different bodies both
yield the same fixed confirmation. -/
theorem C7_announcements_fixed_confirmation_witness :
    announcements (.obj [("courseId", .str "101"), ("title", .str "Exam"),
        ("message", .str "Friday"), ("apiKey", .str "k")])
        (.resp ⟨true, 200, .obj [("id", .num 55), ("title", .str "Exam")], "{}"⟩)
      = ⟨some ⟨200, .obj [("message", .str "Announcement created")]⟩, 1⟩
    ∧ announcements (.obj [("courseId", .str "101"), ("title", .str "Exam"),
        ("message", .str "Friday"), ("apiKey", .str "k")])
        (.resp ⟨true, 201, .null, ""⟩)
      = ⟨some ⟨200, .obj [("message", .str "Announcement created")]⟩, 1⟩ :=
  ⟨C7_announcements_fixed_confirmation _ _ rfl rfl rfl rfl rfl,
   C7_announcements_fixed_confirmation _ _ rfl rfl rfl rfl rfl⟩

theorem truthyOpt_eq_false_of_falsyPresent {fs : List (String × JsValue)}
    {k : String} (h : falsyPresent fs k) :
    truthyOpt ((JsValue.obj fs).getField k) = false := by
  rcases h with ⟨v, hv, hf⟩
  rw [hv]
  rcases hf with rfl | rfl | rfl <;> rfl

/-- C10: on `/sections`, `/announcements` and `/students`, a required field
that is present but falsy (empty string, 0, or `false`) is treated exactly
like an absent one: 400 `{"error":"Missing required parameters"}` and no
upstream call. -/
theorem C10_falsy_fields_rejected :
    (∀ fs u, (falsyPresent fs "apiKey" ∨ falsyPresent fs "classCode") →
      sections (.obj fs) u = ⟨some ⟨400, missingParamsBody⟩, 0⟩)
    ∧ (∀ fs u, (falsyPresent fs "courseId" ∨ falsyPresent fs "title" ∨
        falsyPresent fs "message" ∨ falsyPresent fs "apiKey") →
      announcements (.obj fs) u = ⟨some ⟨400, missingParamsBody⟩, 0⟩)
    ∧ (∀ fs u₁ u₂, (falsyPresent fs "apiKey" ∨ falsyPresent fs "courseId" ∨
        falsyPresent fs "sectionName") →
      students (.obj fs) u₁ u₂ = ⟨some ⟨400, missingParamsBody⟩, 0⟩) := by
  refine ⟨?_, ?_, ?_⟩
  · intro fs u h
    rcases h with h | h <;> simp [sections, truthyOpt_eq_false_of_falsyPresent h]
  · intro fs u h
    rcases h with h | h | h | h <;>
      simp [announcements, truthyOpt_eq_false_of_falsyPresent h]
  · intro fs u₁ u₂ h
    rcases h with h | h | h <;>
      simp [students, truthyOpt_eq_false_of_falsyPresent h]

/-- C10 (witness): a numeric `classCode`/`courseId` of 0 and an empty-string
`apiKey` are all rejected with 400 and no upstream call. -/
theorem C10_falsy_fields_rejected_witness :
    sections (.obj [("apiKey", .str "k"), ("classCode", .num 0)])
        (.resp ⟨true, 200, .arr [], ""⟩)
      = ⟨some ⟨400, missingParamsBody⟩, 0⟩
    ∧ announcements (.obj [("courseId", .num 0), ("title", .str "t"),
        ("message", .str "m"), ("apiKey", .str "k")])
        (.resp ⟨true, 200, .arr [], ""⟩)
      = ⟨some ⟨400, missingParamsBody⟩, 0⟩
    ∧ students (.obj [("apiKey", .str ""), ("courseId", .str "101"),
        ("sectionName", .str "A")])
        (.resp ⟨true, 200, .arr [], ""⟩) (.resp ⟨true, 200, .arr [], ""⟩)
      = ⟨some ⟨400, missingParamsBody⟩, 0⟩ :=
  ⟨C10_falsy_fields_rejected.1 _ _ (Or.inr ⟨.num 0, rfl, Or.inr (Or.inl rfl)⟩),
   C10_falsy_fields_rejected.2.1 _ _ (Or.inl ⟨.num 0, rfl, Or.inr (Or.inl rfl)⟩),
   C10_falsy_fields_rejected.2.2 _ _ _ (Or.inl ⟨.str "", rfl, Or.inl rfl⟩)⟩
